import Mathlib

/-!
Verification of the option-resolution and invocation-orchestration core of
the cargo-fmt front end (src/cargo-fmt/main.rs).

The Rust source is shallowly embedded below: pure fragments of the code
become Lean functions, the side-effecting driver function execute becomes a
function from parsed options to an explicit outcome value that records what
the program would do next (report a configuration error, spawn an
informational query, or spawn a full format invocation).
-/

namespace CargoFmt

/-- Verbosity enum (lib.rs, referenced from main.rs lines 90-98). -/
inductive Verbosity where
  | Verbose
  | Normal
  | Quiet
  deriving DecidableEq, Repr

/-- CargoFmtStrategy enum (lib.rs, referenced from main.rs lines 242-249).
The Some variant carries the explicit package list. -/
inductive CargoFmtStrategy where
  | Root
  | All
  | Some (packages : List String)
  deriving DecidableEq, Repr

/-- Parsed command-line options, mirroring struct Opts (main.rs lines 22-65). -/
structure Opts where
  quiet : Bool
  verbose : Bool
  version : Bool
  packages : List String
  manifest_path : Option String
  message_format : Option String
  rustfmt_options : List String
  format_all : Bool
  check : Bool
  deriving DecidableEq, Repr

def SUCCESS : Int := 0

def FAILURE : Int := 1

/-- Rust str::starts_with, rendered on character data so that it evaluates
inside the kernel. -/
def strStartsWith (s pre : String) : Bool := pre.data.isPrefixOf s.data

/-- Rust str::ends_with, rendered on character data so that it evaluates
inside the kernel. -/
def strEndsWith (s post : String) : Bool := post.data.isSuffixOf s.data

/-- CargoFmtStrategy::from_opts (main.rs lines 242-249). -/
def CargoFmtStrategy.from_opts (opts : Opts) : CargoFmtStrategy :=
  match opts.format_all, opts.packages.isEmpty with
  | false, true => CargoFmtStrategy.Root
  | true, _ => CargoFmtStrategy.All
  | false, false => CargoFmtStrategy.Some opts.packages

/-- The verbosity match of execute (main.rs lines 90-98): the invalid
combination verbose and quiet yields the configuration error message, the
other three combinations yield a Verbosity value. -/
def verbosity_of (verbose quiet : Bool) : Except String Verbosity :=
  match verbose, quiet with
  | false, false => Except.ok Verbosity.Normal
  | false, true => Except.ok Verbosity.Quiet
  | true, false => Except.ok Verbosity.Verbose
  | true, true => Except.error "quiet mode and verbose mode are not compatible"

/-- The informational-flag test applied to each pass-through argument
(main.rs lines 103-107). -/
def is_info_flag (s : String) : Bool :=
  ["--print-config", "-h", "--help", "-V", "--version"].contains s
    || strStartsWith s "--help="
    || strStartsWith s "--print-config="

/-- The check-flag appending step of execute (main.rs lines 113-118): when
check mode is requested, append a check flag unless one is already present. -/
def append_check (check : Bool) (rustfmt_args : List String) : List String :=
  if check && !(rustfmt_args.any (fun o => o == "--check")) then
    rustfmt_args ++ ["--check"]
  else
    rustfmt_args

/-- convert_message_format_to_rustfmt_args (main.rs lines 154-202).  The
Rust function mutates the argument vector; here the new list is returned on
success.  The single scan loop of lines 158-171 is rendered with List.any. -/
def convert_message_format_to_rustfmt_args (message_format : String)
    (rustfmt_args : List String) : Except String (List String) :=
  let contains_emit_mode := rustfmt_args.any (fun arg => strStartsWith arg "--emit")
  let contains_check := rustfmt_args.any (fun arg => arg == "--check")
  let contains_list_files :=
    rustfmt_args.any (fun arg => arg == "-l" || arg == "--files-with-diff")
  match message_format with
  | "short" =>
    if !contains_list_files then
      Except.ok (rustfmt_args ++ ["-l"])
    else
      Except.ok rustfmt_args
  | "json" =>
    if contains_emit_mode then
      Except.error "cannot include --emit arg when --message-format is set to json"
    else if contains_check then
      Except.error "cannot include --check arg when --message-format is set to json"
    else
      Except.ok (rustfmt_args ++ ["--emit", "json"])
  | "human" => Except.ok rustfmt_args
  | _ =>
    Except.error ("invalid --message-format value: " ++ message_format
      ++ ". Allowed values are: short|json|human")

/-- The optional message-format conversion step of execute
(main.rs lines 119-125). -/
def message_format_step (message_format : Option String)
    (rustfmt_args : List String) : Except String (List String) :=
  match message_format with
  | some mf => convert_message_format_to_rustfmt_args mf rustfmt_args
  | none => Except.ok rustfmt_args

/-- The manifest-path validation of execute (main.rs lines 127-136): an
absent path passes; a present path must end with Cargo.toml and is
forwarded unchanged. -/
def validate_manifest_path : Option String → Except String (Option String)
  | some specified_manifest_path =>
    if !(strEndsWith specified_manifest_path "Cargo.toml") then
      Except.error "the manifest-path must be a path to a Cargo.toml file"
    else
      Except.ok (some specified_manifest_path)
  | none => Except.ok none

/-- What execute decides to do next, made explicit.  configError records
returning FAILURE after print_usage_to_stderr, without spawning anything;
infoQuery records spawning the formatter through get_rustfmt_info with the
given arguments; formatInvocation records calling format_crate, which spawns
the formatter for the assembled invocation. -/
inductive ExecOutcome where
  | configError (msg : String)
  | infoQuery (args : List String)
  | formatInvocation (verbosity : Verbosity) (strategy : CargoFmtStrategy)
      (rustfmt_args : List String) (manifest_path : Option String)
  deriving DecidableEq, Repr

def ExecOutcome.isConfigError : ExecOutcome → Bool
  | ExecOutcome.configError _ => true
  | _ => false

/-- execute (main.rs lines 76-145), from the parsed options onward (argument
parsing and the stripping of the leading fmt token are the argument-parsing
library and not modelled here).  Every early return FAILURE after print_usage_to_stderr
becomes configError; the two get_rustfmt_info calls become infoQuery; the
final format_crate call becomes formatInvocation. -/
def execute (opts : Opts) : ExecOutcome :=
  match verbosity_of opts.verbose opts.quiet with
  | Except.error msg => ExecOutcome.configError msg
  | Except.ok verbosity =>
    if opts.version then
      ExecOutcome.infoQuery ["--version"]
    else if opts.rustfmt_options.any is_info_flag then
      ExecOutcome.infoQuery opts.rustfmt_options
    else
      let strategy := CargoFmtStrategy.from_opts opts
      let rustfmt_args := append_check opts.check opts.rustfmt_options
      match message_format_step opts.message_format rustfmt_args with
      | Except.error msg => ExecOutcome.configError msg
      | Except.ok rustfmt_args =>
        match validate_manifest_path opts.manifest_path with
        | Except.error msg => ExecOutcome.configError msg
        | Except.ok manifest_path =>
          ExecOutcome.formatInvocation verbosity strategy rustfmt_args manifest_path

/-- Exit status of a finished child process: code is some c when the child
exited with code c, and none when it terminated without an exit code (for
example, killed by a signal). -/
structure ExitStatus where
  code : Option Int
  deriving DecidableEq, Repr

/-- ExitStatus::success: a normal exit with code zero. -/
def ExitStatus.success (s : ExitStatus) : Bool := s.code == some 0

/-- The result mapping of get_rustfmt_info after the child has exited
(main.rs lines 234-239): success maps to SUCCESS, otherwise the exit code
is surfaced, with SUCCESS as the fallback when no exit code exists. -/
def get_rustfmt_info_result (result : ExitStatus) : Int :=
  if result.success then SUCCESS else result.code.getD SUCCESS

/-- handle_command_status (main.rs lines 212-220): a launch error maps to
FAILURE (after printing usage), a status is returned as the exit code. -/
def handle_command_status (status : Except String Int) : Int :=
  match status with
  | Except.error _ => FAILURE
  | Except.ok status => status

/-- Substring test on character lists, used to state that an error message
mentions a given flag. -/
def occursIn (needle : List Char) : List Char → Bool
  | [] => needle.isEmpty
  | c :: cs => needle.isPrefixOf (c :: cs) || occursIn needle cs

/-- The string needle occurs contiguously inside the string hay. -/
def mentions (needle hay : String) : Bool := occursIn needle.data hay.data

/-- The message-format related configuration errors present in a parsed
input, as enumerated by the spec: an invalid message-format value, or the
json format conflicting with an emit flag or with check mode (requested by
flag or already present among the pass-through arguments). -/
def message_format_config_error (opts : Opts) : Bool :=
  match opts.message_format with
  | none => false
  | some "short" => false
  | some "human" => false
  | some "json" =>
    opts.rustfmt_options.any (fun a => strStartsWith a "--emit")
      || opts.check
      || opts.rustfmt_options.any (fun a => a == "--check")
  | some _ => true

/-- A configuration error exists in the parsed input: quiet and verbose both
set, a message-format error, or a manifest path not ending in Cargo.toml. -/
def hasConfigError (opts : Opts) : Bool :=
  (opts.quiet && opts.verbose)
    || message_format_config_error opts
    || (match opts.manifest_path with
        | none => false
        | some p => !(strEndsWith p "Cargo.toml"))

end CargoFmt

/-!
Helper lemmas about the embedded definitions, shared by the claim theorems
below.
-/

namespace CargoFmt

/-- A scan with an equality test from the element side agrees with
List.contains. -/
lemma any_beq_eq_contains (args : List String) (x : String) :
    (args.any (fun o => o == x)) = args.contains x := by
  induction args with
  | nil => rfl
  | cons a as ih =>
    simp only [List.any_cons, List.contains_cons, ih]
    rw [BEq.comm]

/-- The list-files scan of the translator agrees with the two membership
tests. -/
lemma any_list_files_eq_contains (args : List String) :
    (args.any fun a => a == "-l" || a == "--files-with-diff")
      = (args.contains "-l" || args.contains "--files-with-diff") := by
  rw [Bool.eq_iff_iff]
  simp [List.any_eq_true]
  constructor
  · rintro ⟨x, hx, rfl | rfl⟩
    · exact Or.inl hx
    · exact Or.inr hx
  · rintro (h | h)
    · exact ⟨_, h, Or.inl rfl⟩
    · exact ⟨_, h, Or.inr rfl⟩

lemma mfce_none (opts : Opts) (h : opts.message_format = none) :
    message_format_config_error opts = false := by
  unfold message_format_config_error
  rw [h]

lemma mfce_short (opts : Opts) (h : opts.message_format = some "short") :
    message_format_config_error opts = false := by
  unfold message_format_config_error
  rw [h]
  rfl

/-- The translator on a value other than the three accepted ones returns the
invalid-value error. -/
lemma convert_invalid (mf : String) (h1 : mf ≠ "short") (h2 : mf ≠ "json")
    (h3 : mf ≠ "human") (args : List String) :
    convert_message_format_to_rustfmt_args mf args
      = Except.error ("invalid --message-format value: " ++ mf
          ++ ". Allowed values are: short|json|human") := by
  unfold convert_message_format_to_rustfmt_args
  split
  · exact absurd rfl h1
  · exact absurd rfl h2
  · exact absurd rfl h3
  · rfl

lemma convert_json_emit (args : List String)
    (h : args.any (fun a => strStartsWith a "--emit") = true) :
    convert_message_format_to_rustfmt_args "json" args
      = Except.error "cannot include --emit arg when --message-format is set to json" := by
  unfold convert_message_format_to_rustfmt_args
  simp [h]

lemma convert_json_check (args : List String)
    (he : args.any (fun a => strStartsWith a "--emit") = false)
    (hc : args.any (fun a => a == "--check") = true) :
    convert_message_format_to_rustfmt_args "json" args
      = Except.error "cannot include --check arg when --message-format is set to json" := by
  unfold convert_message_format_to_rustfmt_args
  simp [he, hc]

lemma convert_json_clean (args : List String)
    (he : args.any (fun a => strStartsWith a "--emit") = false)
    (hc : args.any (fun a => a == "--check") = false) :
    convert_message_format_to_rustfmt_args "json" args
      = Except.ok (args ++ ["--emit", "json"]) := by
  unfold convert_message_format_to_rustfmt_args
  simp [he, hc]

lemma convert_short_present (args : List String)
    (h : args.any (fun a => a == "-l" || a == "--files-with-diff") = true) :
    convert_message_format_to_rustfmt_args "short" args = Except.ok args := by
  unfold convert_message_format_to_rustfmt_args
  simp [h]

lemma convert_short_absent (args : List String)
    (h : args.any (fun a => a == "-l" || a == "--files-with-diff") = false) :
    convert_message_format_to_rustfmt_args "short" args
      = Except.ok (args ++ ["-l"]) := by
  unfold convert_message_format_to_rustfmt_args
  simp [h]

lemma convert_human (args : List String) :
    convert_message_format_to_rustfmt_args "human" args = Except.ok args := by
  unfold convert_message_format_to_rustfmt_args
  rfl

/-- A successful translation never changes the number of check flags in the
argument list. -/
lemma convert_count_check (mf : String) (args args2 : List String)
    (h : convert_message_format_to_rustfmt_args mf args = Except.ok args2) :
    args2.count "--check" = args.count "--check" := by
  by_cases h1 : mf = "short"
  · subst h1
    rcases hl : args.any (fun a => a == "-l" || a == "--files-with-diff") with _ | _
    · rw [convert_short_absent args hl] at h
      injection h with e
      rw [← e]
      simp [List.count_append]
    · rw [convert_short_present args hl] at h
      injection h with e
      rw [← e]
  · by_cases h2 : mf = "human"
    · subst h2
      rw [convert_human args] at h
      injection h with e
      rw [← e]
    · by_cases h3 : mf = "json"
      · subst h3
        rcases he : args.any (fun a => strStartsWith a "--emit") with _ | _
        · rcases hc : args.any (fun a => a == "--check") with _ | _
          · rw [convert_json_clean args he hc] at h
            injection h with e
            rw [← e]
            simp [List.count_append]
          · rw [convert_json_check args he hc] at h
            cases h
        · rw [convert_json_emit args he] at h
          cases h
      · rw [convert_invalid mf h1 h3 h2 args] at h
        cases h

lemma append_check_check_any (check : Bool) (args : List String) :
    (append_check check args).any (fun o => o == "--check")
      = (check || args.any (fun o => o == "--check")) := by
  unfold append_check
  cases check with
  | false => simp
  | true =>
    cases h : args.any (fun o => o == "--check") with
    | true => simp [h]
    | false => simp [h]

lemma append_check_emit_any (check : Bool) (args : List String) :
    (append_check check args).any (fun a => strStartsWith a "--emit")
      = args.any (fun a => strStartsWith a "--emit") := by
  unfold append_check
  split
  · simp [strStartsWith]
  · rfl

/-- A message-format configuration error in the input makes the
message-format step of execute fail. -/
lemma message_format_step_error (opts : Opts)
    (h : message_format_config_error opts = true) :
    ∃ m, message_format_step opts.message_format
        (append_check opts.check opts.rustfmt_options) = Except.error m := by
  cases hmf : opts.message_format with
  | none => rw [mfce_none opts hmf] at h; cases h
  | some mf =>
    unfold message_format_config_error at h
    rw [hmf] at h
    unfold message_format_step
    by_cases h1 : mf = "short"
    · subst h1; simp at h
    · by_cases h2 : mf = "human"
      · subst h2; simp at h
      · by_cases h3 : mf = "json"
        · subst h3
          simp only [] at h
          rcases he : opts.rustfmt_options.any (fun a => strStartsWith a "--emit") with _ | _
          · rcases hc : (opts.check || opts.rustfmt_options.any (fun a => a == "--check"))
                with _ | _
            · exfalso
              rw [he] at h
              simp at h hc
              rcases hc with ⟨hc1, hc2⟩
              rcases h with h | h
              · simp [hc1] at h
              · exact hc2 _ h rfl
            · exact ⟨_, convert_json_check _ (by rw [append_check_emit_any, he])
                (by rw [append_check_check_any, hc])⟩
          · exact ⟨_, convert_json_emit _ (by rw [append_check_emit_any, he])⟩
        · exact ⟨_, convert_invalid mf h1 h3 h2 _⟩

lemma execute_quiet_verbose (opts : Opts) (hq : opts.quiet = true)
    (hb : opts.verbose = true) :
    execute opts
      = ExecOutcome.configError "quiet mode and verbose mode are not compatible" := by
  unfold execute verbosity_of
  rw [hq, hb]

lemma execute_version (opts : Opts) (hver : opts.version = true)
    (h : (opts.verbose && opts.quiet) = false) :
    execute opts = ExecOutcome.infoQuery ["--version"] := by
  unfold execute
  cases hb : opts.verbose <;> cases hq : opts.quiet
  · simp [verbosity_of, hver]
  · simp [verbosity_of, hver]
  · simp [verbosity_of, hver]
  · rw [hb, hq] at h; cases h

/-- Outside the two informational bypass routes, a configuration error in
the input always drives execute to the configError outcome. -/
lemma execute_configError_core (opts : Opts)
    (h : hasConfigError opts = true)
    (hver : opts.version = false)
    (hinfo : opts.rustfmt_options.any is_info_flag = false) :
    (execute opts).isConfigError = true := by
  by_cases hqv : opts.quiet = true ∧ opts.verbose = true
  · rw [execute_quiet_verbose opts hqv.1 hqv.2]; rfl
  · obtain ⟨vb, hvb⟩ : ∃ vb, verbosity_of opts.verbose opts.quiet = Except.ok vb := by
      cases hb : opts.verbose <;> cases hq : opts.quiet <;>
        simp [verbosity_of]
      exact absurd ⟨hq, hb⟩ hqv
    unfold execute
    rw [hvb, hver, hinfo]
    simp only [Bool.false_eq_true, if_false]
    rcases hstep : message_format_step opts.message_format
        (append_check opts.check opts.rustfmt_options) with m | args2
    · rfl
    · have hmf : message_format_config_error opts = false := by
        cases hmfe : message_format_config_error opts
        · rfl
        · obtain ⟨m, hm2⟩ := message_format_step_error opts hmfe
          rw [hm2] at hstep; cases hstep
      rcases hp : opts.manifest_path with _ | p
      · exfalso
        unfold hasConfigError at h
        rw [hmf, hp] at h
        simp at h
        exact hqv h
      · cases hsw : strEndsWith p "Cargo.toml"
        · simp [validate_manifest_path, hsw]
          rfl
        · exfalso
          unfold hasConfigError at h
          rw [hmf, hp] at h
          simp [hsw] at h
          exact hqv h

/-- Inversion for the format invocation outcome: the manifest path is
forwarded unchanged and, when present, passed the suffix validation. -/
lemma execute_formatInvocation_inv (opts : Opts) (v : Verbosity)
    (s : CargoFmtStrategy) (args : List String) (mp : Option String)
    (h : execute opts = ExecOutcome.formatInvocation v s args mp) :
    mp = opts.manifest_path
    ∧ (∀ p, opts.manifest_path = some p → strEndsWith p "Cargo.toml" = true) := by
  unfold execute at h
  rcases hvb : verbosity_of opts.verbose opts.quiet with m | vb <;> rw [hvb] at h
  · cases h
  · cases hver : opts.version <;> rw [hver] at h
    · cases hinfo : opts.rustfmt_options.any is_info_flag <;> rw [hinfo] at h
      · simp only [Bool.false_eq_true, if_false] at h
        rcases hstep : message_format_step opts.message_format
            (append_check opts.check opts.rustfmt_options) with m | args2 <;>
          rw [hstep] at h
        · cases h
        · rcases hp : opts.manifest_path with _ | p <;> rw [hp] at h
          · simp [validate_manifest_path] at h
            refine ⟨?_, ?_⟩
            · exact h.2.2.2.symm
            · intro p2 hp2; cases hp2
          · cases hsw : strEndsWith p "Cargo.toml" <;>
              simp [validate_manifest_path, hsw] at h
            · refine ⟨?_, ?_⟩
              · exact h.2.2.2.symm
              · intro p2 hp2
                injection hp2 with e
                rw [← e]
                exact hsw
      · simp at h
    · simp at h

end CargoFmt

/-!
Claim theorems.
-/

namespace CargoFmt

/-- C1: Strategy resolution is a total pure function of the format_all flag
and the explicit package list: when format_all is set the strategy is All
regardless of the packages, otherwise a non-empty package list yields Some
with the exact user-given list (order kept, no deduplication), and an empty
list yields Root. -/
theorem C1_strategy_resolution (opts : Opts) :
    CargoFmtStrategy.from_opts opts =
      (if opts.format_all = true then CargoFmtStrategy.All
       else if opts.packages = [] then CargoFmtStrategy.Root
       else CargoFmtStrategy.Some opts.packages) := by
  unfold CargoFmtStrategy.from_opts
  cases hf : opts.format_all <;> cases hp : opts.packages <;> simp [List.isEmpty]

/-- C4: Verbosity construction fails exactly when quiet and verbose are both
set; the three valid combinations give Normal, Quiet and Verbose, and the
conflicting combination drives execute to the configuration error before any
further processing. -/
theorem C4_verbosity_construction :
    (∀ v q : Bool, (verbosity_of v q).isOk = !(q && v))
    ∧ verbosity_of false false = Except.ok Verbosity.Normal
    ∧ verbosity_of false true = Except.ok Verbosity.Quiet
    ∧ verbosity_of true false = Except.ok Verbosity.Verbose
    ∧ (∀ opts : Opts, opts.quiet = true → opts.verbose = true →
        execute opts
          = ExecOutcome.configError "quiet mode and verbose mode are not compatible") := by
  refine ⟨?_, rfl, rfl, rfl, fun opts hq hb => execute_quiet_verbose opts hq hb⟩
  intro v q
  cases v <;> cases q <;> rfl

/-- C4 witness: the conflicting combination at a concrete input. -/
theorem C4_verbosity_witness :
    execute ⟨true, true, false, [], none, none, [], false, false⟩
      = ExecOutcome.configError "quiet mode and verbose mode are not compatible" :=
  C4_verbosity_construction.2.2.2.2 ⟨true, true, false, [], none, none, [], false, false⟩
    rfl rfl

/-- C8: Message-format short is idempotent with respect to list-files
output: with -l or --files-with-diff already present the list is returned
unchanged, otherwise exactly the single entry -l is appended. -/
theorem C8_short_message_format_idempotent (args : List String) :
    ((args.contains "-l" || args.contains "--files-with-diff") = true →
      convert_message_format_to_rustfmt_args "short" args = Except.ok args)
    ∧ ((args.contains "-l" || args.contains "--files-with-diff") = false →
      convert_message_format_to_rustfmt_args "short" args
        = Except.ok (args ++ ["-l"])) := by
  constructor
  · intro h
    exact convert_short_present args (by rw [any_list_files_eq_contains, h])
  · intro h
    exact convert_short_absent args (by rw [any_list_files_eq_contains, h])

/-- C8 witness: both branches at concrete argument lists. -/
theorem C8_short_witness :
    convert_message_format_to_rustfmt_args "short" ["--files-with-diff"]
        = Except.ok ["--files-with-diff"]
    ∧ convert_message_format_to_rustfmt_args "short" ["--check"]
        = Except.ok ["--check", "-l"] :=
  ⟨(C8_short_message_format_idempotent ["--files-with-diff"]).1 (by decide),
   (C8_short_message_format_idempotent ["--check"]).2 (by decide)⟩

/-- C9: a child process that terminates unsuccessfully but without an exit
code (for example, killed by a signal) is mapped to the success code 0 by
the info-query result mapping, so the program reports success. -/
theorem C9_signal_termination_maps_to_success :
    ExitStatus.success ⟨none⟩ = false
    ∧ get_rustfmt_info_result ⟨none⟩ = SUCCESS
    ∧ handle_command_status (Except.ok (get_rustfmt_info_result ⟨none⟩)) = 0 :=
  ⟨rfl, rfl, rfl⟩

end CargoFmt

namespace CargoFmt

/-- C7: with the version flag set (and no verbosity conflict) execute routes
directly to an informational query with exactly the single argument
--version, bypassing strategy resolution; a successful formatter exit maps
to exit code 0 and a non-zero exit code is surfaced unchanged. -/
theorem C7_version_and_exit_code_propagation :
    (∀ opts : Opts, opts.version = true → (opts.verbose && opts.quiet) = false →
      execute opts = ExecOutcome.infoQuery ["--version"])
    ∧ (∀ s : ExitStatus, s.success = true →
        handle_command_status (Except.ok (get_rustfmt_info_result s)) = 0)
    ∧ (∀ c : Int, c ≠ 0 →
        handle_command_status (Except.ok (get_rustfmt_info_result ⟨some c⟩)) = c) := by
  refine ⟨fun opts h1 h2 => execute_version opts h1 h2, ?_, ?_⟩
  · intro s h
    unfold handle_command_status get_rustfmt_info_result
    rw [h]
    rfl
  · intro c h
    unfold handle_command_status get_rustfmt_info_result
    have hs : (ExitStatus.mk (some c)).success = false := by
      simp [ExitStatus.success]
      exact h
    rw [hs]
    rfl

/-- C7 witness: the version query at a concrete input, and exit codes 0 and
3 surfaced as 0 and 3. -/
theorem C7_version_witness :
    execute ⟨false, false, true, [], none, none, [], false, false⟩
        = ExecOutcome.infoQuery ["--version"]
    ∧ handle_command_status (Except.ok (get_rustfmt_info_result ⟨some 0⟩)) = 0
    ∧ handle_command_status (Except.ok (get_rustfmt_info_result ⟨some 3⟩)) = 3 :=
  ⟨C7_version_and_exit_code_propagation.1 ⟨false, false, true, [], none, none, [], false, false⟩
      rfl rfl,
   C7_version_and_exit_code_propagation.2.1 ⟨some 0⟩ rfl,
   C7_version_and_exit_code_propagation.2.2 3 (by decide)⟩

/-- C10: manifest-path validation is a plain string-suffix test, not a
filename test: every string ending in the characters Cargo.toml is accepted
and forwarded unchanged, including MyCargo.toml and fooCargo.toml whose
final path component is not the file Cargo.toml. -/
theorem C10_manifest_suffix_is_string_test :
    (∀ p : String, strEndsWith p "Cargo.toml" = true →
      validate_manifest_path (some p) = Except.ok (some p))
    ∧ validate_manifest_path (some "MyCargo.toml") = Except.ok (some "MyCargo.toml")
    ∧ validate_manifest_path (some "fooCargo.toml") = Except.ok (some "fooCargo.toml")
    ∧ execute ⟨false, false, false, [], some "MyCargo.toml", none, [], false, false⟩
        = ExecOutcome.formatInvocation Verbosity.Normal CargoFmtStrategy.Root []
            (some "MyCargo.toml") := by
  refine ⟨?_, rfl, rfl, by decide⟩
  intro p h
  unfold validate_manifest_path
  simp [h]

/-- C10 witness: the suffix acceptance applied at a concrete path whose
final component is not Cargo.toml. -/
theorem C10_suffix_witness :
    validate_manifest_path (some "dir/MyCargo.toml") = Except.ok (some "dir/MyCargo.toml") :=
  C10_manifest_suffix_is_string_test.1 "dir/MyCargo.toml" (by decide)

/-- C6: a supplied manifest path must end with Cargo.toml: foo/bar.txt is
rejected with the configuration error (and, outside the informational bypass
routes, execute reports a configuration error), foo/Cargo.toml is accepted
and forwarded unchanged; every format invocation forwards the manifest path
unchanged and only after it passed the suffix validation. -/
theorem C6_manifest_path_validation :
    validate_manifest_path (some "foo/bar.txt")
        = Except.error "the manifest-path must be a path to a Cargo.toml file"
    ∧ validate_manifest_path (some "foo/Cargo.toml") = Except.ok (some "foo/Cargo.toml")
    ∧ (∀ (opts : Opts) (p : String), opts.manifest_path = some p →
        strEndsWith p "Cargo.toml" = false →
        opts.version = false → opts.rustfmt_options.any is_info_flag = false →
        (execute opts).isConfigError = true)
    ∧ (∀ (opts : Opts) (v : Verbosity) (s : CargoFmtStrategy) (args : List String)
          (mp : Option String),
        execute opts = ExecOutcome.formatInvocation v s args mp →
        mp = opts.manifest_path
          ∧ ∀ p, opts.manifest_path = some p → strEndsWith p "Cargo.toml" = true) := by
  refine ⟨rfl, rfl, ?_, ?_⟩
  · intro opts p hp hsw hver hinfo
    apply execute_configError_core opts ?_ hver hinfo
    unfold hasConfigError
    rw [hp]
    simp [hsw]
  · exact fun opts v s args mp h => execute_formatInvocation_inv opts v s args mp h

/-- C6 witness: the rejection at a concrete bad path and the validated
suffix extracted from a concrete accepted run. -/
theorem C6_manifest_witness :
    (execute ⟨false, false, false, [], some "foo/bar.txt", none, [], false, false⟩).isConfigError
        = true
    ∧ strEndsWith "foo/Cargo.toml" "Cargo.toml" = true :=
  ⟨C6_manifest_path_validation.2.2.1
      ⟨false, false, false, [], some "foo/bar.txt", none, [], false, false⟩
      "foo/bar.txt" rfl (by decide) rfl rfl,
   (C6_manifest_path_validation.2.2.2
      ⟨false, false, false, [], some "foo/Cargo.toml", none, [], false, false⟩
      Verbosity.Normal CargoFmtStrategy.Root [] (some "foo/Cargo.toml") (by decide)).2
      "foo/Cargo.toml" rfl⟩

end CargoFmt

namespace CargoFmt

/-- C3 counterexample: on a list containing both --check and an --emit
entry, json translation fails with the emit error, whose message does not
mention --check, refuting the claim that a list containing --check fails
with an error mentioning --check. -/
theorem C3_counterexample :
    (["--check", "--emit"] : List String).contains "--check" = true
    ∧ convert_message_format_to_rustfmt_args "json" ["--check", "--emit"]
        = Except.error "cannot include --emit arg when --message-format is set to json"
    ∧ mentions "--check" "cannot include --emit arg when --message-format is set to json"
        = false :=
  ⟨by decide, rfl, by decide⟩

/-- C3 amended: json translation checks the emit condition first: with any
entry beginning with --emit it fails mentioning --emit; otherwise with the
entry --check present it fails mentioning --check; otherwise it succeeds
appending exactly --emit then json at the end with the pre-existing entries
unchanged. -/
theorem C3_json_message_format (args : List String) :
    (args.any (fun a => strStartsWith a "--emit") = true →
      convert_message_format_to_rustfmt_args "json" args
          = Except.error "cannot include --emit arg when --message-format is set to json"
        ∧ mentions "--emit" "cannot include --emit arg when --message-format is set to json"
            = true)
    ∧ (args.any (fun a => strStartsWith a "--emit") = false →
        args.contains "--check" = true →
      convert_message_format_to_rustfmt_args "json" args
          = Except.error "cannot include --check arg when --message-format is set to json"
        ∧ mentions "--check" "cannot include --check arg when --message-format is set to json"
            = true)
    ∧ (args.any (fun a => strStartsWith a "--emit") = false →
        args.contains "--check" = false →
      convert_message_format_to_rustfmt_args "json" args
          = Except.ok (args ++ ["--emit", "json"])) := by
  refine ⟨?_, ?_, ?_⟩
  · intro he
    exact ⟨convert_json_emit args he, by decide⟩
  · intro he hc
    exact ⟨convert_json_check args he (by rw [any_beq_eq_contains, hc]), by decide⟩
  · intro he hc
    exact convert_json_clean args he (by rw [any_beq_eq_contains, hc])

/-- C3 witness: the three branches at concrete argument lists. -/
theorem C3_json_witness :
    convert_message_format_to_rustfmt_args "json" ["--emit=files"]
        = Except.error "cannot include --emit arg when --message-format is set to json"
    ∧ convert_message_format_to_rustfmt_args "json" ["--check"]
        = Except.error "cannot include --check arg when --message-format is set to json"
    ∧ convert_message_format_to_rustfmt_args "json" ["-l"]
        = Except.ok ["-l", "--emit", "json"] :=
  ⟨((C3_json_message_format ["--emit=files"]).1 (by decide)).1,
   ((C3_json_message_format ["--check"]).2.1 (by decide) (by decide)).1,
   (C3_json_message_format ["-l"]).2.2 (by decide) (by decide)⟩

/-- C5 counterexample: with --check occurring twice among the pass-through
arguments and check mode requested, nothing is appended and the final list
keeps two --check entries, refuting exactly one. -/
theorem C5_counterexample :
    (append_check true ["--check", "--check"]).count "--check" = 2
    ∧ ¬ (append_check true ["--check", "--check"]).count "--check" = 1 :=
  ⟨by decide, by decide⟩

/-- C5 amended: when check mode is requested, no copy is appended if the
pass-through arguments already contain --check (their count is kept
unchanged, duplicates included), and exactly one --check is appended
otherwise; hence the final list has exactly one --check entry whenever the
pass-through arguments contain at most one, and a successful message-format
translation never changes that count. -/
theorem C5_check_flag_dedup (args : List String) :
    (args.contains "--check" = true → append_check true args = args)
    ∧ (args.contains "--check" = false →
        append_check true args = args ++ ["--check"])
    ∧ (args.count "--check" ≤ 1 → (append_check true args).count "--check" = 1)
    ∧ (∀ (mf : String) (args2 : List String),
        convert_message_format_to_rustfmt_args mf args = Except.ok args2 →
        args2.count "--check" = args.count "--check") := by
  have hac : (args.any fun o => o == "--check") = args.contains "--check" :=
    any_beq_eq_contains args "--check"
  refine ⟨?_, ?_, ?_, fun mf args2 h => convert_count_check mf args args2 h⟩
  · intro h
    unfold append_check
    rw [hac, h]
    rfl
  · intro h
    unfold append_check
    rw [hac, h]
    rfl
  · intro h
    rcases hc : args.contains "--check" with _ | _
    · have hc2 : ¬ "--check" ∈ args := by
        have := hc
        simpa using this
      have h0 : args.count "--check" = 0 := List.count_eq_zero.mpr hc2
      unfold append_check
      rw [hac, hc]
      simp [List.count_append, h0]
    · have hc2 : "--check" ∈ args := by
        have := hc
        simpa using this
      have h1 : 0 < args.count "--check" := List.count_pos_iff.mpr hc2
      unfold append_check
      rw [hac, hc]
      simp only [Bool.not_true, Bool.and_false, Bool.false_eq_true, if_false]
      omega

/-- C5 witness: all four parts at concrete inputs. -/
theorem C5_check_witness :
    append_check true ["--check"] = ["--check"]
    ∧ append_check true ["-l"] = ["-l", "--check"]
    ∧ (append_check true []).count "--check" = 1
    ∧ (["-l", "--emit", "json"] : List String).count "--check"
        = (["-l"] : List String).count "--check" :=
  ⟨(C5_check_flag_dedup ["--check"]).1 (by decide),
   (C5_check_flag_dedup ["-l"]).2.1 (by decide),
   (C5_check_flag_dedup []).2.2.1 (by decide),
   (C5_check_flag_dedup ["-l"]).2.2.2 "json" ["-l", "--emit", "json"] rfl⟩

/-- Concrete input for the C2 counterexample: the version flag together with
an invalid message-format value. -/
def c2_input : Opts := ⟨false, false, true, [], none, some "xml", [], false, false⟩

/-- C2 counterexample: an input carrying a configuration error (invalid
message-format value xml) together with the version flag is routed to the
informational query, so the formatter is spawned and no configuration error
is ever reported, refuting the claim for every such input. -/
theorem C2_counterexample :
    hasConfigError c2_input = true
    ∧ execute c2_input = ExecOutcome.infoQuery ["--version"]
    ∧ (execute c2_input).isConfigError = false :=
  ⟨by decide, by decide, by decide⟩

/-- C2 amended: for every input that contains a configuration error and is
not routed to the informational bypass (the version flag is absent and no
pass-through argument is an informational flag), execute reports the error
as a configuration error with failure status and never reaches a spawning
outcome; in the bypassed cases only the quiet-verbose conflict is still
detected first. -/
theorem C2_config_error_blocks_spawn (opts : Opts)
    (h : hasConfigError opts = true)
    (hver : opts.version = false)
    (hinfo : opts.rustfmt_options.any is_info_flag = false) :
    (execute opts).isConfigError = true :=
  execute_configError_core opts h hver hinfo

/-- C2 witness: a concrete input with an invalid message-format value and no
informational route is stopped as a configuration error. -/
theorem C2_config_error_witness :
    (execute ⟨false, false, false, [], none, some "xml", [], false, false⟩).isConfigError
      = true :=
  C2_config_error_blocks_spawn ⟨false, false, false, [], none, some "xml", [], false, false⟩
    (by decide) rfl rfl

end CargoFmt
